import Mathlib

/-!
Verification of the background task-execution engine of `agent_pm`.

The definitions below are a shallow embedding of the queue store
(`agent_pm/storage/redis.py`), the worker loop and the in-memory backend
(`agent_pm/storage/tasks.py`).  Redis hashes are modelled as insertion-ordered
association lists (the mock redis used by the repository's own tests models
them with python dicts in the same way), redis lists as Lean lists, timestamps
and durations as natural numbers, and JSON payloads as structures carrying the
fields the engine reads and writes.
-/

namespace AgentPM

/-! ## Association-list primitives (redis hash / python dict) -/

/-- Last-writer-wins insert: `HSET key field value` on a hash whose fields are
kept in insertion order, updating in place when the field exists. -/
def setKV {β : Type} : List (String × β) → String → β → List (String × β)
  | [], k, v => [(k, v)]
  | (k', v') :: rest, k, v =>
    if k' = k then (k, v) :: rest else (k', v') :: setKV rest k v

/-- Field lookup: `HGET key field`. -/
def lookupKV {β : Type} : List (String × β) → String → Option β
  | [], _ => none
  | (k', v') :: rest, k => if k' = k then some v' else lookupKV rest k

/-- Field removal: `HDEL key field`. -/
def eraseKV {β : Type} : List (String × β) → String → List (String × β)
  | [], _ => []
  | (k', v') :: rest, k =>
    if k' = k then eraseKV rest k else (k', v') :: eraseKV rest k

/-! ## Data model -/

/-- The task envelope as serialized into the redis queue / dead-letter hash.
Fields mirror the keys the engine reads or writes on the JSON payload
(`tasks.py` builds it in `enqueue`; the worker loop and the dead-letter path
mutate it in place).  `workflow_id` stands for `metadata["workflow_id"]`, the
only metadata key the engine itself inspects. -/
structure Payload where
  task_id : String
  name : String
  max_retries : Nat := 3
  retry_count : Nat := 0
  workflow_id : Option String := none
  last_error : Option String := none
  error_type : Option String := none
  error_message : Option String := none
  stack_trace : Option String := none
  worker_id : Option Nat := none
  recorded_at : Option Nat := none
  requeued_at : Option Nat := none
  enqueued_at : Nat := 0
deriving DecidableEq, Repr

/-- A retry policy stored in the `agent_pm:retry_policy` hash; every field is
optional because the worker reads each with a default
(`policy.get("timeout", ...)`, `policy.get("max_retries", ...)`). -/
structure RetryPolicy where
  timeout : Option Nat := none
  max_retries : Option Nat := none
deriving DecidableEq, Repr

/-- A worker heartbeat payload (`{worker_id, task_id, name, completed_at}`),
written by the worker after a successful completion. -/
structure Heartbeat where
  worker_id : Nat
  task_id : String
  name : String
  completed_at : Nat
deriving DecidableEq, Repr

/-- An entry of the dead-letter audit list (`append_dead_letter_audit`). -/
structure AuditEntry where
  event : String
  task_id : String
  timestamp : Nat
deriving DecidableEq, Repr

/-- The redis keyspace owned by the queue, one component per key of
`storage/redis.py`: the FIFO task list, the result hash, the dead-letter
hash, the capped audit list, the retry-policy hash and the heartbeat hash.
`heartbeatExpiry` models the expiry deadline that `EXPIRE` attaches to the
heartbeat hash as a whole (redis expires whole keys, not hash fields): the key
is readable strictly before the deadline and gone from the deadline on. -/
structure RedisState where
  queue : List Payload := []
  results : List (String × String) := []
  deadLetters : List (String × Payload) := []
  audit : List AuditEntry := []
  retryPolicies : List (String × RetryPolicy) := []
  heartbeats : List (String × Heartbeat) := []
  heartbeatExpiry : Option Nat := none
deriving DecidableEq, Repr

/-! ## storage/redis.py operations -/

/-- `enqueue_task`: `RPUSH` of the serialized payload onto the queue list. -/
def enqueue_task (st : RedisState) (p : Payload) : RedisState :=
  { st with queue := st.queue ++ [p] }

/-- `pop_task`: `LPOP` from the queue list. -/
def pop_task (st : RedisState) : Option Payload × RedisState :=
  match st.queue with
  | [] => (none, st)
  | p :: rest => (some p, { st with queue := rest })

/-- `set_task_result`: `HSET` on the result hash (the result record is kept
opaque, as a string). -/
def set_task_result (st : RedisState) (task_id : String) (result : String) :
    RedisState :=
  { st with results := setKV st.results task_id result }

/-- `record_dead_letter`: stamp `recorded_at` if absent (`setdefault`) and
`HSET` the payload into the dead-letter hash under its task id.  It does not
touch the audit list. -/
def record_dead_letter (st : RedisState) (p : Payload) (now : Nat) : RedisState :=
  let p' := if p.recorded_at = none then { p with recorded_at := some now } else p
  { st with deadLetters := setKV st.deadLetters p.task_id p' }

/-- `get_dead_letter`: `HGET` on the dead-letter hash. -/
def get_dead_letter (st : RedisState) (task_id : String) : Option Payload :=
  lookupKV st.deadLetters task_id

/-- `clear_dead_letter`: `HDEL` on the dead-letter hash. -/
def clear_dead_letter (st : RedisState) (task_id : String) : RedisState :=
  { st with deadLetters := eraseKV st.deadLetters task_id }

/-- `count_dead_letters`: `HLEN` on the dead-letter hash. -/
def count_dead_letters (st : RedisState) : Nat :=
  st.deadLetters.length

/-- `append_dead_letter_audit`: `LPUSH` the entry then `LTRIM` to the cap
(`max_entries`, default 1000) — a capped, FIFO-trimmed list.  This helper
exists in `storage/redis.py` (and is exercised by its unit test) but no
production code path calls it. -/
def append_dead_letter_audit (st : RedisState) (e : AuditEntry)
    (max_entries : Nat := 1000) : RedisState :=
  { st with audit := (e :: st.audit).take max_entries }

/-- The age predicate of `purge_dead_letters`: an entry is purged when it
carries a parseable `recorded_at` and `recorded_dt <= older_than`; entries
without a `recorded_at` are skipped. -/
def isPurgedB (cutoff : Nat) (e : String × Payload) : Bool :=
  match e.2.recorded_at with
  | some t => decide (t ≤ cutoff)
  | none => false

/-- `purge_dead_letters`: with no cutoff, read `HLEN` then `DEL` the whole
dead-letter hash and report the count; with a cutoff, `HDEL` exactly the
entries whose `recorded_at` is at or before the cutoff, counting them. -/
def purge_dead_letters (st : RedisState) (older_than : Option Nat) :
    Nat × RedisState :=
  match older_than with
  | none => (st.deadLetters.length, { st with deadLetters := [] })
  | some cutoff =>
    ((st.deadLetters.filter (isPurgedB cutoff)).length,
     { st with deadLetters := st.deadLetters.filter (fun e => !(isPurgedB cutoff e)) })

/-- `set_retry_policy` (non-empty policy branch): `HSET` on the policy hash. -/
def set_retry_policy (st : RedisState) (task_name : String) (policy : RetryPolicy) :
    RedisState :=
  { st with retryPolicies := setKV st.retryPolicies task_name policy }

/-- `get_retry_policy`: `HGET` on the policy hash. -/
def get_retry_policy (st : RedisState) (task_name : String) : Option RetryPolicy :=
  lookupKV st.retryPolicies task_name

/-- `write_heartbeat`: `HSET` the worker's field of the heartbeat hash, then
`EXPIRE` the hash — which resets the single whole-key deadline to
`now + ttl` regardless of which worker wrote. -/
def write_heartbeat (st : RedisState) (worker_key : String) (hb : Heartbeat)
    (ttl : Nat) (now : Nat) : RedisState :=
  { st with
    heartbeats := setKV st.heartbeats worker_key hb
    heartbeatExpiry := some (now + ttl) }

/-- `list_heartbeats` observed at time `t`: `HGETALL` sees nothing once the
whole-key expiry deadline has passed, and every stored field before it. -/
def list_heartbeats (st : RedisState) (t : Nat) : List (String × Heartbeat) :=
  match st.heartbeatExpiry with
  | some d => if d ≤ t then [] else st.heartbeats
  | none => st.heartbeats

/-! ## RedisTaskQueue operations layered on the store (`storage/tasks.py`) -/

/-- `RedisTaskQueue.requeue_dead_letter`: look the entry up; absent ⇒ `None`
with the state untouched; present ⇒ `HDEL` it, drop `last_error`, reset
`retry_count` to 0, stamp `requeued_at`, `RPUSH` the payload back onto the
queue and return it. -/
def requeue_dead_letter (st : RedisState) (task_id : String) (now : Nat) :
    Option Payload × RedisState :=
  match get_dead_letter st task_id with
  | none => (none, st)
  | some p =>
    let st1 := clear_dead_letter st task_id
    let p' := { p with last_error := none, retry_count := 0, requeued_at := some now }
    (some p', enqueue_task st1 p')

/-- `RedisTaskQueue.purge_dead_letters`: no age bound ⇒ purge everything; an
age bound `older_than` ⇒ purge with cutoff `utc_now() - older_than`. -/
def purgeDeadLettersQueue (st : RedisState) (now : Nat) (older_than : Option Nat) :
    Nat × RedisState :=
  match older_than with
  | none => purge_dead_letters st none
  | some age => purge_dead_letters st (some (now - age))

/-! ## The worker loop (`RedisTaskQueue._worker`)

One pop-and-execute iteration of the worker is embedded as a pure function:
the behaviour of the handler on the popped payload is abstracted as an
`Outcome` (the handler returns, raises, or exceeds the `asyncio.wait_for`
deadline), and the iteration classifies it exactly as the `try/except` ladder
of `_worker` does.  Whether a handler is registered is the membership of the
task name in the worker process's registry. -/

/-- How one handler invocation ends: a value, an exception (classified by its
runtime type name, carrying its message), or the `asyncio.wait_for` deadline
expiring. -/
inductive Outcome where
  | success
  | failure (errType : String) (msg : String)
  | timeout
deriving DecidableEq, Repr

/-- What one worker iteration decided to do with the popped payload. -/
inductive CycleResult where
  | missingCallable (dead : Payload)
  | timedOut (dead : Payload)
  | exhausted (dead : Payload)
  | requeued (next : Payload)
  | completed (p : Payload)
deriving DecidableEq, Repr

/-- The effective max-retries of a popped payload:
`int(policy.get("max_retries", payload.get("max_retries", 3)))` with the
policy freshly looked up by task name. -/
def effMaxRetries (policies : List (String × RetryPolicy)) (p : Payload) : Nat :=
  match lookupKV policies p.name with
  | some pol => pol.max_retries.getD p.max_retries
  | none => p.max_retries

/-- The dead-letter payload built for an unregistered task name: error fields
set to the `MissingCallable` classification, the worker id recorded, and every
other field — `retry_count` included — left as popped. -/
def mcPayload (workerId : Nat) (p : Payload) : Payload :=
  { p with
    error_type := some "MissingCallable"
    error_message := some ("Task callable not registered: " ++ p.name)
    stack_trace := none
    worker_id := some workerId }

/-- One pop-and-execute iteration of `RedisTaskQueue._worker` on payload `p`:
no registered handler ⇒ immediate dead-letter; a timeout ⇒ increment
`retry_count` and dead-letter unconditionally; an exception ⇒ increment
`retry_count`, dead-letter when it reached the effective max-retries and
re-enqueue (after the backoff sleep) otherwise; success ⇒ result record. -/
def execCycle (registry : List String) (policies : List (String × RetryPolicy))
    (workerId : Nat) (p : Payload) (o : Outcome) : CycleResult :=
  if p.name ∈ registry then
    let retries := p.retry_count
    let maxR := effMaxRetries policies p
    match o with
    | .success => .completed p
    | .timeout =>
      .timedOut { p with
        retry_count := retries + 1
        last_error := some "timeout"
        error_type := some "TimeoutError"
        error_message := some "Task execution exceeded timeout"
        stack_trace := none
        worker_id := some workerId }
    | .failure errType msg =>
      if maxR ≤ retries + 1 then
        .exhausted { p with
          retry_count := retries + 1
          last_error := some msg
          error_type := some errType
          error_message := some msg
          stack_trace := some msg
          worker_id := some workerId }
      else
        .requeued { p with retry_count := retries + 1, last_error := some msg }
  else
    .missingCallable (mcPayload workerId p)

/-- The store effect of one worker iteration: every dead-lettering branch is a
`record_dead_letter`, a retry is a fresh `enqueue_task` of the mutated
payload, and success writes the result record and the worker's heartbeat. -/
def applyCycle (st : RedisState) (r : CycleResult) (workerId ttl now : Nat) :
    RedisState :=
  match r with
  | .missingCallable d => record_dead_letter st d now
  | .timedOut d => record_dead_letter st d now
  | .exhausted d => record_dead_letter st d now
  | .requeued p' => enqueue_task st p'
  | .completed p' =>
    write_heartbeat (set_task_result st p'.task_id "completed")
      ("worker:" ++ toString workerId)
      ⟨workerId, p'.task_id, p'.name, now⟩ ttl now

/-- The terminal fate of one task under repeated worker iterations. -/
inductive TaskFate where
  | dead (entry : Payload)
  | ok
  | pending (p : Payload)
deriving DecidableEq, Repr

/-- Follow a single task through the worker loop: each popped attempt consumes
the next handler `Outcome`, a re-enqueued payload is popped again, and the run
stops at a dead-letter record, a success, or when the outcome budget is spent
while the task sits re-enqueued (`pending`).  An unregistered name needs no
outcome: it is dead-lettered on the pop itself. -/
def runTask (registry : List String) (policies : List (String × RetryPolicy))
    (workerId : Nat) : Payload → List Outcome → TaskFate
  | p, [] =>
    if p.name ∈ registry then .pending p else .dead (mcPayload workerId p)
  | p, o :: rest =>
    match execCycle registry policies workerId p o with
    | .missingCallable d => .dead d
    | .timedOut d => .dead d
    | .exhausted d => .dead d
    | .completed _ => .ok
    | .requeued p' => runTask registry policies workerId p' rest

/-! ## Auto-triage and alerting (`_worker`'s exhausted-failure tail)

After an exhausted failure is dead-lettered, `_worker` runs, in this order:
`_should_auto_requeue` + bounded auto-requeue, `_record_failure` (sliding
failure window), and — when the window threshold is met — `_send_alert`
(cooldown-gated Slack dispatch).  The three in-memory dicts the worker keeps
(`auto_requeue_counts`, `recent_failures`, `last_alert_sent`) form
`WorkerLocal`. -/

/-- The settings the worker reads each loop iteration. -/
structure Settings where
  auto_requeue_errors : List String := []
  max_auto_requeues : Nat := 3
  alert_threshold : Nat := 10
  alert_window : Nat := 300
  alert_cooldown : Nat := 600
  alert_channel : Option String := none
  dry_run : Bool := false
  slack_enabled : Bool := false
deriving DecidableEq, Repr

/-- The worker-local advisory state: per-pair auto-requeue counters (keyed
`f"{identifier}:{error_type}"`), the sliding failure windows (keyed
`f"{error_type}:{identifier}"`), and the last successful alert time per error
type.  A fresh worker starts with all three empty. -/
structure WorkerLocal where
  auto_requeue_counts : List (String × Nat) := []
  recent_failures : List (String × List Nat) := []
  last_alert_sent : List (String × Nat) := []
deriving DecidableEq, Repr

/-- `_should_auto_requeue`: the error type is in the configured whitelist. -/
def should_auto_requeue (s : Settings) (errType : String) : Bool :=
  decide (errType ∈ s.auto_requeue_errors)

/-- The bounded auto-requeue decision on the counter map: fire only when the
error type is whitelisted and the pair's counter is below the cap, and then
increment the pair's counter. -/
def auto_requeue_step (s : Settings) (counts : List (String × Nat))
    (errType identifier : String) : Bool × List (String × Nat) :=
  if should_auto_requeue s errType then
    let key := identifier ++ ":" ++ errType
    let c := (lookupKV counts key).getD 0
    if c < s.max_auto_requeues then (true, setKV counts key (c + 1))
    else (false, counts)
  else (false, counts)

/-- `_record_failure`: append `now` to the pair's window, drop entries older
than `now - alert_window`, and report whether the kept window reached the
alert threshold. -/
def record_failure (s : Settings) (wl : WorkerLocal)
    (errType identifier : String) (now : Nat) : Bool × WorkerLocal :=
  let key := errType ++ ":" ++ identifier
  let entries := ((lookupKV wl.recent_failures key).getD []) ++ [now]
  let cutoff := now - s.alert_window
  let kept := entries.filter (fun ts => decide (cutoff ≤ ts))
  (decide (s.alert_threshold ≤ kept.length),
   { wl with recent_failures := setKV wl.recent_failures key kept })

/-- The cooldown gate of `_send_alert`: blocked when a previous alert for this
error type was dispatched less than the cooldown ago
(`last_sent and now - last_sent < cooldown`). -/
def alert_blocked (s : Settings) (wl : WorkerLocal) (errType : String)
    (now : Nat) : Bool :=
  match lookupKV wl.last_alert_sent errType with
  | some t => decide (now - t < s.alert_cooldown)
  | none => false

/-- `_send_alert`: skip without a channel, in dry-run, or with Slack disabled;
skip when the cooldown gate is closed; otherwise post — and only a successful
post (`postOk`) records the dispatch time.  The returned flag is whether an
alert was dispatched. -/
def send_alert (s : Settings) (wl : WorkerLocal) (errType : String)
    (now : Nat) (postOk : Bool) : Bool × WorkerLocal :=
  if s.alert_channel = none then (false, wl)
  else if s.dry_run || !s.slack_enabled then (false, wl)
  else if alert_blocked s wl errType now then (false, wl)
  else if postOk then
    (true, { wl with last_alert_sent := setKV wl.last_alert_sent errType now })
  else (false, wl)

/-- What the triage tail of one exhausted failure did. -/
structure TriageResult where
  requeued : Bool
  alerted : Bool
deriving DecidableEq, Repr

/-- The triage tail run for one exhausted failure, in the worker's order:
auto-requeue first, then failure-window recording, then the cooldown-gated
alert when the threshold condition holds. -/
def exhausted_triage (s : Settings) (wl : WorkerLocal)
    (errType identifier : String) (now : Nat) (postOk : Bool) :
    TriageResult × WorkerLocal :=
  let ar := auto_requeue_step s wl.auto_requeue_counts errType identifier
  let wl1 := { wl with auto_requeue_counts := ar.2 }
  let rf := record_failure s wl1 errType identifier now
  let al := if rf.1 then send_alert s rf.2 errType now postOk else (false, rf.2)
  (⟨ar.1, al.1⟩, al.2)

/-- One exhausted failure observed by the worker: its error type, the task
identifier (`metadata["workflow_id"]` or the task name), the wall-clock time,
and whether the Slack post would succeed. -/
structure FailEvent where
  errType : String
  identifier : String
  time : Nat
  postOk : Bool
deriving DecidableEq, Repr

/-- Run the triage tail over a sequence of exhausted failures, logging what
each one did. -/
def run_triage (s : Settings) (wl : WorkerLocal) :
    List FailEvent → List (FailEvent × TriageResult)
  | [] => []
  | ev :: rest =>
    let step := exhausted_triage s wl ev.errType ev.identifier ev.time ev.postOk
    (ev, step.1) :: run_triage s step.2 rest

/-- The dispatch times of the alerts fired for error type `e` in a triage
log, in order. -/
def alertTimes (e : String) (log : List (FailEvent × TriageResult)) : List Nat :=
  (log.filter (fun pr => pr.2.alerted && decide (pr.1.errType = e))).map
    (fun pr => pr.1.time)

/-! ## The in-memory backend (`TaskQueue` in `storage/tasks.py`)

The base class keeps a deque of tasks and an in-process task map; its
dead-letter, retry-policy and heartbeat methods are inert stubs returning
empty values regardless of state, and `_execute_task` either completes a task,
re-enqueues it while `retry_count < max_retries`, or marks it `FAILED`. -/

/-- The `TaskStatus` enum. -/
inductive TaskStatus where
  | pending
  | running
  | completed
  | failed
  | retrying
deriving DecidableEq, Repr

/-- The in-memory `Task` dataclass (the fields `_execute_task` touches). -/
structure MemTask where
  task_id : String
  name : String
  status : TaskStatus := .pending
  retry_count : Nat := 0
  max_retries : Nat := 3
  error : Option String := none
  result : Option String := none
deriving DecidableEq, Repr

/-- How one in-memory handler invocation ends. -/
inductive MemOutcome where
  | success (v : String)
  | failure (msg : String)
deriving DecidableEq, Repr

/-- `TaskQueue._execute_task` on one attempt: mark running; success completes
the task; an exception increments `retry_count`, re-enqueues while the count
is still below `max_retries` (status `RETRYING`), and otherwise marks the task
`FAILED` — nothing else.  The returned flag is whether the task went back onto
the queue. -/
def memExecuteTask (t : MemTask) (o : MemOutcome) : MemTask × Bool :=
  let t1 := { t with status := TaskStatus.running }
  match o with
  | .success v => ({ t1 with status := TaskStatus.completed, result := some v }, false)
  | .failure msg =>
    let t2 := { t1 with error := some msg, retry_count := t1.retry_count + 1 }
    if t2.retry_count < t2.max_retries then
      ({ t2 with status := TaskStatus.retrying }, true)
    else
      ({ t2 with status := TaskStatus.failed }, false)

/-- The in-memory queue state: the deque and the in-process task map. -/
structure MemQueue where
  queue : List MemTask := []
  tasks : List (String × MemTask) := []
deriving DecidableEq, Repr

/-- `TaskQueue.list_dead_letters`: always `([], 0)`. -/
def mem_list_dead_letters (q : MemQueue) (limit : Nat := 100) (offset : Nat := 0)
    (workflow_id : Option String := none) (error_type : Option String := none) :
    List Payload × Nat :=
  ([], 0)

/-- `TaskQueue.get_dead_letter`: always `None`. -/
def mem_get_dead_letter (q : MemQueue) (task_id : String) : Option Payload :=
  none

/-- `TaskQueue.requeue_dead_letter`: always `None`. -/
def mem_requeue_dead_letter (q : MemQueue) (task_id : String) : Option Payload :=
  none

/-- `TaskQueue.purge_dead_letters`: always 0. -/
def mem_purge_dead_letters (q : MemQueue) : Nat :=
  0

/-- `TaskQueue.purge_dead_letters_older_than`: always 0. -/
def mem_purge_dead_letters_older_than (q : MemQueue) (age : Nat) : Nat :=
  0

/-- `TaskQueue.get_retry_policy`: always `None`. -/
def mem_get_retry_policy (q : MemQueue) (task_name : String) : Option RetryPolicy :=
  none

/-- `TaskQueue.list_retry_policies`: always `{}`. -/
def mem_list_retry_policies (q : MemQueue) : List (String × RetryPolicy) :=
  []

/-- `TaskQueue.worker_heartbeats`: always `{}`. -/
def mem_worker_heartbeats (q : MemQueue) : List (String × Heartbeat) :=
  []

/-- `TaskQueue.list_dead_letter_audit`: always `[]`. -/
def mem_list_dead_letter_audit (q : MemQueue) (limit : Nat := 100) :
    List AuditEntry :=
  []

/-! ## Helper lemmas -/

theorem lookupKV_setKV_self {β : Type} (l : List (String × β)) (k : String) (v : β) :
    lookupKV (setKV l k v) k = some v := by
  induction l with
  | nil => simp [setKV, lookupKV]
  | cons hd tl ih =>
    obtain ⟨k', v'⟩ := hd
    by_cases h : k' = k
    · simp [setKV, lookupKV, h]
    · simp [setKV, lookupKV, h, ih]

theorem lookupKV_setKV_ne {β : Type} (l : List (String × β)) (k k' : String) (v : β)
    (h : k ≠ k') : lookupKV (setKV l k v) k' = lookupKV l k' := by
  induction l with
  | nil => simp [setKV, lookupKV, h]
  | cons hd tl ih =>
    obtain ⟨k₀, v₀⟩ := hd
    by_cases hk : k₀ = k
    · subst hk
      simp [setKV, lookupKV, h]
    · simp [setKV, lookupKV, hk, ih]

theorem lookupKV_eraseKV_self {β : Type} (l : List (String × β)) (k : String) :
    lookupKV (eraseKV l k) k = none := by
  induction l with
  | nil => simp [eraseKV, lookupKV]
  | cons hd tl ih =>
    obtain ⟨k', v'⟩ := hd
    by_cases h : k' = k
    · simp [eraseKV, h, ih]
    · simp [eraseKV, lookupKV, h, ih]

/-! ## Claim theorems -/

/-- C10: in the in-memory backend every dead-letter, retry-policy and
heartbeat operation is inert in every state — `list_dead_letters` returns
`([], 0)`, `get_dead_letter` and `requeue_dead_letter` return `None`, both
purges return 0, `list_retry_policies` and `worker_heartbeats` return `{}` —
and a task that exhausts its retries is only marked `FAILED` in the in-process
task map, never re-enqueued and never written to any dead-letter store. -/
theorem mem_backend_inert (q : MemQueue) (limit offset : Nat)
    (wf et : Option String) (task_id : String) (age : Nat) (nm : String)
    (t : MemTask) (msg : String) :
    mem_list_dead_letters q limit offset wf et = ([], 0)
    ∧ mem_get_dead_letter q task_id = none
    ∧ mem_requeue_dead_letter q task_id = none
    ∧ mem_purge_dead_letters q = 0
    ∧ mem_purge_dead_letters_older_than q age = 0
    ∧ mem_get_retry_policy q nm = none
    ∧ mem_list_retry_policies q = []
    ∧ mem_worker_heartbeats q = []
    ∧ mem_list_dead_letter_audit q limit = []
    ∧ (t.max_retries ≤ t.retry_count + 1 →
        (memExecuteTask t (MemOutcome.failure msg)).1.status = TaskStatus.failed
        ∧ (memExecuteTask t (MemOutcome.failure msg)).2 = false) := by
  refine ⟨rfl, rfl, rfl, rfl, rfl, rfl, rfl, rfl, rfl, ?_⟩
  intro h
  have hlt : ¬ (t.retry_count + 1 < t.max_retries) := by omega
  constructor <;> simp [memExecuteTask, hlt]

/-- Witness for C10 at a concrete state: a task with `max_retries = 0` whose
first attempt fails is marked `FAILED` and not re-enqueued. -/
theorem mem_backend_inert_witness :
    (memExecuteTask { task_id := "t1", name := "job", max_retries := 0 }
        (MemOutcome.failure "boom")).1.status = TaskStatus.failed
    ∧ (memExecuteTask { task_id := "t1", name := "job", max_retries := 0 }
        (MemOutcome.failure "boom")).2 = false :=
  (mem_backend_inert {} 100 0 none none "t1" 0 "job"
      { task_id := "t1", name := "job", max_retries := 0 } "boom"
    ).2.2.2.2.2.2.2.2.2 (by decide)

/-- C3 (code bug): none of recording a dead letter, requeueing a dead letter,
or purging dead letters (with or without an age bound) appends anything to the
audit log — each leaves `audit` exactly as it was, even though the operation
itself is effective (the record really lands in the dead-letter hash).  The
only audit writer, `append_dead_letter_audit`, appends one capped entry but is
never called by any of these operations. -/
theorem audit_log_never_written (st : RedisState) (p : Payload) (now : Nat)
    (task_id : String) (age cutoff cap : Nat) (e : AuditEntry) :
    (record_dead_letter st p now).audit = st.audit
    ∧ ((requeue_dead_letter st task_id now).2).audit = st.audit
    ∧ ((purge_dead_letters st none).2).audit = st.audit
    ∧ ((purge_dead_letters st (some cutoff)).2).audit = st.audit
    ∧ ((purgeDeadLettersQueue st now (some age)).2).audit = st.audit
    ∧ ((purgeDeadLettersQueue st now none).2).audit = st.audit
    ∧ (∃ q, get_dead_letter (record_dead_letter st p now) p.task_id = some q)
    ∧ (append_dead_letter_audit st e cap).audit = (e :: st.audit).take cap := by
  refine ⟨rfl, ?_, rfl, rfl, rfl, rfl, ?_, rfl⟩
  · cases h : get_dead_letter st task_id <;>
      simp [requeue_dead_letter, h, clear_dead_letter, enqueue_task]
  · by_cases hrec : p.recorded_at = none
    · exact ⟨{ p with recorded_at := some now },
        by simp [record_dead_letter, get_dead_letter, hrec, lookupKV_setKV_self]⟩
    · exact ⟨p,
        by simp [record_dead_letter, get_dead_letter, hrec, lookupKV_setKV_self]⟩

/-- C4: `requeue_dead_letter` on a task id holding a dead-letter entry removes
that entry, re-enqueues the payload with `retry_count = 0` regardless of the
stored retry count, and returns that payload; on a task id with no entry it
returns `None` and leaves the whole state — queue and dead-letter hash —
unchanged. -/
theorem requeue_dead_letter_spec (st : RedisState) (task_id : String) (now : Nat) :
    (get_dead_letter st task_id = none →
      requeue_dead_letter st task_id now = (none, st))
    ∧ (∀ p, get_dead_letter st task_id = some p →
        ∃ p', p' = { p with last_error := none, retry_count := 0,
                            requeued_at := some now }
          ∧ requeue_dead_letter st task_id now
              = (some p', { st with deadLetters := eraseKV st.deadLetters task_id,
                                    queue := st.queue ++ [p'] })
          ∧ p'.retry_count = 0
          ∧ get_dead_letter (requeue_dead_letter st task_id now).2 task_id = none) := by
  constructor
  · intro h
    simp [requeue_dead_letter, h]
  · intro p h
    refine ⟨_, rfl, ?_, rfl, ?_⟩
    · simp [requeue_dead_letter, h, clear_dead_letter, enqueue_task]
    · simp only [requeue_dead_letter, h]
      simp [clear_dead_letter, enqueue_task, get_dead_letter, lookupKV_eraseKV_self]

/-- Witness for C4 at a concrete state: a dead-letter entry stored with
`retry_count = 7` is requeued with `retry_count = 0` and its entry is gone. -/
theorem requeue_dead_letter_spec_witness :
    ∃ p', p' = { ({ task_id := "t1", name := "job", retry_count := 7 } : Payload)
                   with last_error := none, retry_count := 0, requeued_at := some 5 }
      ∧ requeue_dead_letter
          { deadLetters := [("t1", { task_id := "t1", name := "job", retry_count := 7 })] }
          "t1" 5
          = (some p',
             { ({ deadLetters := [("t1", { task_id := "t1", name := "job", retry_count := 7 })] } : RedisState)
                 with deadLetters := eraseKV [("t1", { task_id := "t1", name := "job", retry_count := 7 })] "t1",
                      queue := [] ++ [p'] })
      ∧ p'.retry_count = 0
      ∧ get_dead_letter (requeue_dead_letter
          { deadLetters := [("t1", { task_id := "t1", name := "job", retry_count := 7 })] }
          "t1" 5).2 "t1" = none :=
  (requeue_dead_letter_spec
      { deadLetters := [("t1", { task_id := "t1", name := "job", retry_count := 7 })] }
      "t1" 5).2
    { task_id := "t1", name := "job", retry_count := 7 } (by decide)

/-- C5: a popped payload whose name has no registered handler is dead-lettered
by that very iteration with `error_type = MissingCallable`, the error message
and worker id recorded, its `retry_count` untouched; it is never re-enqueued
(the queue is unchanged and the run over any outcome budget ends dead), and no
execution attempt is consumed. -/
theorem missing_callable_immediate_dead_letter
    (registry : List String) (policies : List (String × RetryPolicy))
    (workerId : Nat) (p : Payload) (o : Outcome) (os : List Outcome)
    (st : RedisState) (ttl now : Nat)
    (h : p.name ∉ registry) :
    execCycle registry policies workerId p o
      = CycleResult.missingCallable (mcPayload workerId p)
    ∧ (mcPayload workerId p).error_type = some "MissingCallable"
    ∧ (mcPayload workerId p).error_message
        = some ("Task callable not registered: " ++ p.name)
    ∧ (mcPayload workerId p).worker_id = some workerId
    ∧ (mcPayload workerId p).retry_count = p.retry_count
    ∧ runTask registry policies workerId p os = TaskFate.dead (mcPayload workerId p)
    ∧ (applyCycle st (execCycle registry policies workerId p o) workerId ttl now).queue
        = st.queue
    ∧ (∃ q, get_dead_letter
          (applyCycle st (execCycle registry policies workerId p o) workerId ttl now)
          p.task_id = some q
        ∧ q.retry_count = p.retry_count) := by
  refine ⟨?_, rfl, rfl, rfl, rfl, ?_, ?_, ?_⟩
  · simp [execCycle, h]
  · cases os <;> simp [runTask, execCycle, h]
  · simp [execCycle, h, applyCycle, record_dead_letter]
  · by_cases hrec : p.recorded_at = none
    · refine ⟨{ mcPayload workerId p with recorded_at := some now }, ?_, rfl⟩
      simp [execCycle, h, applyCycle, record_dead_letter, get_dead_letter,
        mcPayload, hrec, lookupKV_setKV_self]
    · refine ⟨mcPayload workerId p, ?_, rfl⟩
      simp [execCycle, h, applyCycle, record_dead_letter, get_dead_letter,
        mcPayload, hrec, lookupKV_setKV_self]

/-- Witness for C5 at a concrete input: a fresh task named `ghost` against an
empty registry is dead-lettered at once with `MissingCallable` and
`retry_count` still 0. -/
theorem missing_callable_immediate_dead_letter_witness :
    execCycle [] [] 0 { task_id := "t1", name := "ghost" } Outcome.success
      = CycleResult.missingCallable (mcPayload 0 { task_id := "t1", name := "ghost" })
    ∧ (mcPayload 0 { task_id := "t1", name := "ghost" }).error_type
        = some "MissingCallable"
    ∧ (mcPayload 0 { task_id := "t1", name := "ghost" }).error_message
        = some ("Task callable not registered: " ++ "ghost")
    ∧ (mcPayload 0 { task_id := "t1", name := "ghost" }).worker_id = some 0
    ∧ (mcPayload 0 { task_id := "t1", name := "ghost" }).retry_count
        = ({ task_id := "t1", name := "ghost" } : Payload).retry_count
    ∧ runTask [] [] 0 { task_id := "t1", name := "ghost" }
        [Outcome.success, Outcome.success]
        = TaskFate.dead (mcPayload 0 { task_id := "t1", name := "ghost" })
    ∧ (applyCycle {} (execCycle [] [] 0 { task_id := "t1", name := "ghost" }
          Outcome.success) 0 30 9).queue = ({} : RedisState).queue
    ∧ (∃ q, get_dead_letter
          (applyCycle {} (execCycle [] [] 0 { task_id := "t1", name := "ghost" }
            Outcome.success) 0 30 9) "t1" = some q
        ∧ q.retry_count = ({ task_id := "t1", name := "ghost" } : Payload).retry_count) :=
  missing_callable_immediate_dead_letter [] [] 0 { task_id := "t1", name := "ghost" }
    Outcome.success [Outcome.success, Outcome.success] {} 30 9 (by decide)

/-- C1 counterexample: a registered fresh task (`retry_count = 0`,
effective `max_retries = 3`) that times out has incremented `retry_count`
`1 < 3`, yet the worker records a dead letter and re-enqueues nothing — the
queue stays empty — contradicting the claim that below the effective
max-retries a timed-out task is re-enqueued rather than dead-lettered. -/
theorem timeout_below_max_retries_counterexample :
    effMaxRetries [] { task_id := "t1", name := "job" } = 3
    ∧ ((1 : Nat) < 3)
    ∧ (execCycle ["job"] [] 0 { task_id := "t1", name := "job" }
          Outcome.timeout
        = CycleResult.timedOut
            { task_id := "t1", name := "job", retry_count := 1,
              last_error := some "timeout", error_type := some "TimeoutError",
              error_message := some "Task execution exceeded timeout",
              stack_trace := none, worker_id := some 0 })
    ∧ (applyCycle {} (execCycle ["job"] [] 0 { task_id := "t1", name := "job" }
          Outcome.timeout) 0 30 9).queue = []
    ∧ ((get_dead_letter (applyCycle {}
          (execCycle ["job"] [] 0 { task_id := "t1", name := "job" }
            Outcome.timeout) 0 30 9) "t1").map Payload.error_type
        = some (some "TimeoutError")) := by
  decide

/-- C1 (amended): a task whose execution exceeds the effective timeout has its
`retry_count` incremented and `error_type` set to `TimeoutError`, but the
worker dead-letters it immediately and unconditionally: it is never
re-enqueued, even when the incremented `retry_count` is still below the
effective `max_retries`. -/
theorem timeout_dead_letters_immediately
    (registry : List String) (policies : List (String × RetryPolicy))
    (workerId : Nat) (p : Payload) (st : RedisState) (ttl now : Nat)
    (h : p.name ∈ registry) :
    ∃ d, execCycle registry policies workerId p Outcome.timeout
        = CycleResult.timedOut d
      ∧ d.retry_count = p.retry_count + 1
      ∧ d.error_type = some "TimeoutError"
      ∧ d.last_error = some "timeout"
      ∧ d.worker_id = some workerId
      ∧ (applyCycle st (CycleResult.timedOut d) workerId ttl now).queue = st.queue
      ∧ (∃ q, get_dead_letter
            (applyCycle st (CycleResult.timedOut d) workerId ttl now) p.task_id
            = some q
          ∧ q.retry_count = p.retry_count + 1
          ∧ q.error_type = some "TimeoutError") := by
  refine ⟨{ p with
              retry_count := p.retry_count + 1,
              last_error := some "timeout",
              error_type := some "TimeoutError",
              error_message := some "Task execution exceeded timeout",
              stack_trace := none,
              worker_id := some workerId },
          by simp [execCycle, h], rfl, rfl, rfl, rfl, rfl, ?_⟩
  by_cases hrec : p.recorded_at = none
  · refine ⟨{ p with
                retry_count := p.retry_count + 1,
                last_error := some "timeout",
                error_type := some "TimeoutError",
                error_message := some "Task execution exceeded timeout",
                stack_trace := none,
                worker_id := some workerId,
                recorded_at := some now }, ?_, rfl, rfl⟩
    simp [applyCycle, record_dead_letter, get_dead_letter, hrec, lookupKV_setKV_self]
  · refine ⟨{ p with
                retry_count := p.retry_count + 1,
                last_error := some "timeout",
                error_type := some "TimeoutError",
                error_message := some "Task execution exceeded timeout",
                stack_trace := none,
                worker_id := some workerId }, ?_, rfl, rfl⟩
    simp [applyCycle, record_dead_letter, get_dead_letter, hrec, lookupKV_setKV_self]

/-- Witness for the amended C1 at a concrete input: the timed-out fresh task
of the counterexample is dead-lettered with `retry_count = 1`. -/
theorem timeout_dead_letters_immediately_witness :
    ∃ d, execCycle ["job"] [] 0 { task_id := "t1", name := "job" }
        Outcome.timeout = CycleResult.timedOut d
      ∧ d.retry_count = ({ task_id := "t1", name := "job" } : Payload).retry_count + 1
      ∧ d.error_type = some "TimeoutError"
      ∧ d.last_error = some "timeout"
      ∧ d.worker_id = some 0
      ∧ (applyCycle {} (CycleResult.timedOut d) 0 30 9).queue = ({} : RedisState).queue
      ∧ (∃ q, get_dead_letter (applyCycle {} (CycleResult.timedOut d) 0 30 9) "t1"
            = some q
          ∧ q.retry_count = ({ task_id := "t1", name := "job" } : Payload).retry_count + 1
          ∧ q.error_type = some "TimeoutError") :=
  timeout_dead_letters_immediately ["job"] [] 0 { task_id := "t1", name := "job" }
    {} 30 9 (by decide)

/-- C8 counterexample: with `now = 10` and an age bound of 5 the cutoff is
`10 - 5 = 5`; an entry recorded exactly at 5 does not precede the cutoff, yet
the purge removes it (and reports it in the count) — the code's comparison is
`recorded_at <= cutoff`, not strict. -/
theorem purge_cutoff_boundary_counterexample :
    (purgeDeadLettersQueue
        { deadLetters := [("t1", { task_id := "t1", name := "job", recorded_at := some 5 })] }
        10 (some 5)).1 = 1
    ∧ (purgeDeadLettersQueue
        { deadLetters := [("t1", { task_id := "t1", name := "job", recorded_at := some 5 })] }
        10 (some 5)).2.deadLetters = []
    ∧ ¬ ((5 : Nat) < 10 - 5) := by
  decide

/-- C8 (amended): purge with no age bound removes every dead-letter entry and
returns the exact number removed; purge with an age bound removes exactly the
entries whose `recorded_at` is at or before the cutoff `now - bound`
(boundary included), so an age bound of 0 removes every entry recorded at or
before `now`, and an age bound strictly larger than the age of every entry
removes none. -/
theorem purge_dead_letters_spec (st : RedisState) (now age cutoff : Nat) :
    (purge_dead_letters st none).1 = count_dead_letters st
    ∧ (purge_dead_letters st none).2.deadLetters = []
    ∧ purgeDeadLettersQueue st now none = purge_dead_letters st none
    ∧ purgeDeadLettersQueue st now (some age) = purge_dead_letters st (some (now - age))
    ∧ (purge_dead_letters st (some cutoff)).2.deadLetters
        = st.deadLetters.filter (fun e => !(isPurgedB cutoff e))
    ∧ (purge_dead_letters st (some cutoff)).1
        = (st.deadLetters.filter (isPurgedB cutoff)).length
    ∧ (∀ e, e ∈ (purge_dead_letters st (some cutoff)).2.deadLetters ↔
        (e ∈ st.deadLetters ∧ ∀ t, e.2.recorded_at = some t → cutoff < t))
    ∧ ((∀ e ∈ st.deadLetters, ∃ t, e.2.recorded_at = some t ∧ t ≤ now) →
        (purgeDeadLettersQueue st now (some 0)).1 = count_dead_letters st
        ∧ (purgeDeadLettersQueue st now (some 0)).2.deadLetters = [])
    ∧ ((∀ e ∈ st.deadLetters, ∀ t, e.2.recorded_at = some t → now - age < t) →
        purgeDeadLettersQueue st now (some age) = (0, st)) := by
  refine ⟨rfl, rfl, rfl, rfl, rfl, rfl, ?_, ?_, ?_⟩
  · intro e
    simp only [purge_dead_letters, List.mem_filter, Bool.not_eq_eq_eq_not,
      Bool.not_true]
    constructor
    · rintro ⟨hmem, hb⟩
      refine ⟨hmem, ?_⟩
      intro t ht
      by_contra hlt
      have : isPurgedB cutoff e = true := by
        simp [isPurgedB, ht]
        omega
      simp [this] at hb
    · rintro ⟨hmem, hall⟩
      refine ⟨hmem, ?_⟩
      cases hrec : e.2.recorded_at with
      | none => simp [isPurgedB, hrec]
      | some t =>
        have := hall t hrec
        simp [isPurgedB, hrec]
        omega
  · intro hold
    have hall : ∀ e ∈ st.deadLetters, isPurgedB now e = true := by
      intro e he
      obtain ⟨t, ht, hle⟩ := hold e he
      simp [isPurgedB, ht]
      omega
    constructor
    · simp only [purgeDeadLettersQueue, Nat.sub_zero, purge_dead_letters,
        count_dead_letters]
      rw [List.filter_eq_self.mpr hall]
    · simp only [purgeDeadLettersQueue, Nat.sub_zero, purge_dead_letters]
      rw [List.filter_eq_nil_iff.mpr ?_]
      intro e he
      simp [hall e he]
  · intro hfresh
    have hnone : ∀ e ∈ st.deadLetters, isPurgedB (now - age) e = false := by
      intro e he
      cases hrec : e.2.recorded_at with
      | none => simp [isPurgedB, hrec]
      | some t =>
        have := hfresh e he t hrec
        simp [isPurgedB, hrec]
        omega
    have h1 : List.filter (isPurgedB (now - age)) st.deadLetters = [] :=
      List.filter_eq_nil_iff.mpr (by intro e he; simp [hnone e he])
    have h2 : List.filter (fun e => !(isPurgedB (now - age) e)) st.deadLetters
        = st.deadLetters :=
      List.filter_eq_self.mpr (by intro e he; simp [hnone e he])
    simp only [purgeDeadLettersQueue, purge_dead_letters, h1, h2, List.length_nil]

/-- Witness for the amended C8 at a concrete state: one entry recorded at 3
with `now = 10`; an age bound of 0 purges it, and an age bound of 9 (cutoff 1,
strictly older than the entry's age) purges nothing and leaves the state
unchanged. -/
theorem purge_dead_letters_spec_witness :
    ((purgeDeadLettersQueue
        { deadLetters := [("t1", { task_id := "t1", name := "job", recorded_at := some 3 })] }
        10 (some 0)).1
      = count_dead_letters
          { deadLetters := [("t1", { task_id := "t1", name := "job", recorded_at := some 3 })] }
      ∧ (purgeDeadLettersQueue
          { deadLetters := [("t1", { task_id := "t1", name := "job", recorded_at := some 3 })] }
          10 (some 0)).2.deadLetters = [])
    ∧ purgeDeadLettersQueue
        { deadLetters := [("t1", { task_id := "t1", name := "job", recorded_at := some 3 })] }
        10 (some 9)
        = (0, { deadLetters := [("t1", { task_id := "t1", name := "job", recorded_at := some 3 })] }) :=
  ⟨(purge_dead_letters_spec
      { deadLetters := [("t1", { task_id := "t1", name := "job", recorded_at := some 3 })] }
      10 0 0).2.2.2.2.2.2.2.1 (by decide),
   (purge_dead_letters_spec
      { deadLetters := [("t1", { task_id := "t1", name := "job", recorded_at := some 3 })] }
      10 9 0).2.2.2.2.2.2.2.2 (by decide)⟩

/-- C9 counterexample: with a TTL of 10, worker 0 writes its heartbeat at time
0 and worker 1 writes at time 9; observed at time 15 — past worker 0's own
last completion plus the TTL — worker 0's heartbeat record is still present,
because worker 1's write reset the single expiry that redis attaches to the
whole heartbeat hash.  Per-worker expiry as claimed does not happen. -/
theorem heartbeat_ttl_not_per_worker_counterexample :
    ((0 : Nat) + 10 ≤ 15)
    ∧ lookupKV
        (list_heartbeats
          (write_heartbeat
            (write_heartbeat {} "worker:0" ⟨0, "a", "job", 0⟩ 10 0)
            "worker:1" ⟨1, "b", "job", 9⟩ 10 9)
          15)
        "worker:0" = some ⟨0, "a", "job", 0⟩ := by
  decide

/-- C9 (amended): the heartbeat hash carries a single whole-key TTL: every
`write_heartbeat`, by any worker, resets the shared expiry deadline to
`now + ttl`; strictly before that deadline `list_heartbeats` returns every
stored record (the writer's and every other worker's alike), and from the
deadline on it returns none at all — records expire together, not per
worker. -/
theorem heartbeat_ttl_shared
    (st : RedisState) (worker_key : String) (hb : Heartbeat) (ttl now t : Nat) :
    (write_heartbeat st worker_key hb ttl now).heartbeatExpiry = some (now + ttl)
    ∧ (t < now + ttl →
        list_heartbeats (write_heartbeat st worker_key hb ttl now) t
          = setKV st.heartbeats worker_key hb)
    ∧ (now + ttl ≤ t →
        list_heartbeats (write_heartbeat st worker_key hb ttl now) t = []) := by
  refine ⟨rfl, ?_, ?_⟩
  · intro hlt
    simp [list_heartbeats, write_heartbeat]
    omega
  · intro hle
    simp [list_heartbeats, write_heartbeat, hle]

/-- Witness for the amended C9 at a concrete input: after worker 1's write at
time 9 with TTL 10, at time 15 both records are visible, and at time 19 the
hash is empty. -/
theorem heartbeat_ttl_shared_witness :
    (list_heartbeats
        (write_heartbeat (write_heartbeat {} "worker:0" ⟨0, "a", "job", 0⟩ 10 0)
          "worker:1" ⟨1, "b", "job", 9⟩ 10 9) 15
      = setKV (write_heartbeat {} "worker:0" ⟨0, "a", "job", 0⟩ 10 0).heartbeats
          "worker:1" ⟨1, "b", "job", 9⟩)
    ∧ (list_heartbeats
        (write_heartbeat (write_heartbeat {} "worker:0" ⟨0, "a", "job", 0⟩ 10 0)
          "worker:1" ⟨1, "b", "job", 9⟩ 10 9) 19 = []) :=
  ⟨(heartbeat_ttl_shared (write_heartbeat {} "worker:0" ⟨0, "a", "job", 0⟩ 10 0)
      "worker:1" ⟨1, "b", "job", 9⟩ 10 9 15).2.1 (by decide),
   (heartbeat_ttl_shared (write_heartbeat {} "worker:0" ⟨0, "a", "job", 0⟩ 10 0)
      "worker:1" ⟨1, "b", "job", 9⟩ 10 9 19).2.2 (by decide)⟩

/-- A run of `k` consecutive ordinary failures that stays below the effective
max-retries leaves the task re-enqueued (pending) with `retry_count` grown by
exactly `k`. -/
theorem runTask_fail_pending (registry : List String)
    (policies : List (String × RetryPolicy)) (workerId : Nat) (e msg : String) :
    ∀ (k : Nat) (p : Payload), p.name ∈ registry →
      p.retry_count + k < effMaxRetries policies p →
      ∃ q, runTask registry policies workerId p
            (List.replicate k (Outcome.failure e msg)) = TaskFate.pending q
        ∧ q.retry_count = p.retry_count + k
        ∧ q.name = p.name := by
  intro k
  induction k with
  | zero =>
    intro p hreg _
    exact ⟨p, by simp [runTask, hreg], by omega, rfl⟩
  | succ k ih =>
    intro p hreg hlt
    have hmax : ¬ (effMaxRetries policies p ≤ p.retry_count + 1) := by omega
    have step : runTask registry policies workerId p
        (List.replicate (k + 1) (Outcome.failure e msg))
        = runTask registry policies workerId
            { p with retry_count := p.retry_count + 1, last_error := some msg }
            (List.replicate k (Outcome.failure e msg)) := by
      simp [List.replicate_succ, runTask, execCycle, hreg, hmax]
    rw [step]
    have heff : effMaxRetries policies
        { p with retry_count := p.retry_count + 1, last_error := some msg }
        = effMaxRetries policies p := rfl
    obtain ⟨q, hq, hrc, hn⟩ := ih
      { p with retry_count := p.retry_count + 1, last_error := some msg }
      hreg (by rw [heff]; simp; omega)
    refine ⟨q, hq, ?_, hn⟩
    simp at hrc
    omega

/-- A run of `k` consecutive ordinary failures that reaches the effective
max-retries ends in a dead-letter record whose `retry_count` equals the
effective max-retries exactly. -/
theorem runTask_fail_dead (registry : List String)
    (policies : List (String × RetryPolicy)) (workerId : Nat) (e msg : String) :
    ∀ (k : Nat) (p : Payload), p.name ∈ registry →
      p.retry_count < effMaxRetries policies p →
      effMaxRetries policies p ≤ p.retry_count + k →
      ∃ d, runTask registry policies workerId p
            (List.replicate k (Outcome.failure e msg)) = TaskFate.dead d
        ∧ d.retry_count = effMaxRetries policies p
        ∧ d.error_type = some e
        ∧ d.error_message = some msg := by
  intro k
  induction k with
  | zero =>
    intro p _ h1 h2
    omega
  | succ k ih =>
    intro p hreg hlo hhi
    by_cases hx : effMaxRetries policies p ≤ p.retry_count + 1
    · have heq : effMaxRetries policies p = p.retry_count + 1 := by omega
      refine ⟨{ p with
                  retry_count := p.retry_count + 1,
                  last_error := some msg,
                  error_type := some e,
                  error_message := some msg,
                  stack_trace := some msg,
                  worker_id := some workerId }, ?_, by simp [heq], rfl, rfl⟩
      simp [List.replicate_succ, runTask, execCycle, hreg, hx]
    · have step : runTask registry policies workerId p
          (List.replicate (k + 1) (Outcome.failure e msg))
          = runTask registry policies workerId
              { p with retry_count := p.retry_count + 1, last_error := some msg }
              (List.replicate k (Outcome.failure e msg)) := by
        simp [List.replicate_succ, runTask, execCycle, hreg, hx]
      rw [step]
      have heff : effMaxRetries policies
          { p with retry_count := p.retry_count + 1, last_error := some msg }
          = effMaxRetries policies p := rfl
      obtain ⟨d, hd, h1, h2, h3⟩ := ih
        { p with retry_count := p.retry_count + 1, last_error := some msg }
        hreg (by rw [heff]; simp; omega) (by rw [heff]; simp; omega)
      exact ⟨d, hd, by rw [h1, heff], h2, h3⟩

/-- C2 counterexample: (a) a registered task whose effective `max_retries` is
`N = 0` is dead-lettered with `retry_count = 1` — one failed execution attempt
occurred, not zero; (b) a registered task with effective `max_retries = 3`
whose handler times out is dead-lettered after a single failed attempt, not
three.  Both contradict "exactly `N` failed attempts — not `N+1` and not
`N-1`". -/
theorem retries_exactly_n_counterexample :
    effMaxRetries [] { task_id := "t1", name := "job", max_retries := 0 } = 0
    ∧ runTask ["job"] [] 0 { task_id := "t1", name := "job", max_retries := 0 }
        [Outcome.failure "RuntimeError" "boom"]
      = TaskFate.dead
          { task_id := "t1", name := "job", max_retries := 0, retry_count := 1,
            last_error := some "boom", error_type := some "RuntimeError",
            error_message := some "boom", stack_trace := some "boom",
            worker_id := some 0 }
    ∧ ¬ ((1 : Nat) = 0)
    ∧ effMaxRetries [] { task_id := "t2", name := "job" } = 3
    ∧ runTask ["job"] [] 0 { task_id := "t2", name := "job" } [Outcome.timeout]
      = TaskFate.dead
          { task_id := "t2", name := "job", retry_count := 1,
            last_error := some "timeout", error_type := some "TimeoutError",
            error_message := some "Task execution exceeded timeout",
            stack_trace := none, worker_id := some 0 }
    ∧ ¬ ((1 : Nat) = 3) := by
  decide

/-- C2 (amended): for a fresh task failing with ordinary handler exceptions
(not timeouts), if the effective max-retries is `N ≥ 1` then after `N - 1`
failures the task is still alive (re-enqueued with `retry_count = N - 1`) and
the `N`-th failure dead-letters it with `retry_count = N` — exactly `N` failed
attempts; for `N = 0` the behaviour coincides with `N = 1`: the first failure
is terminal, with one failed attempt (`retry_count = 1`) and no retry.  (A
timed-out task is instead dead-lettered on its first timeout regardless of
`N`; see the timeout theorem.) -/
theorem retries_exhausted_after_n_failures
    (registry : List String) (policies : List (String × RetryPolicy))
    (workerId : Nat) (e msg : String) (p : Payload) (N : Nat)
    (hreg : p.name ∈ registry) (hfresh : p.retry_count = 0)
    (heff : effMaxRetries policies p = N) :
    (1 ≤ N →
      (∃ q, runTask registry policies workerId p
            (List.replicate (N - 1) (Outcome.failure e msg)) = TaskFate.pending q
        ∧ q.retry_count = N - 1)
      ∧ (∃ d, runTask registry policies workerId p
            (List.replicate N (Outcome.failure e msg)) = TaskFate.dead d
        ∧ d.retry_count = N
        ∧ d.error_type = some e))
    ∧ (N = 0 →
        ∃ d, runTask registry policies workerId p
            (List.replicate 1 (Outcome.failure e msg)) = TaskFate.dead d
          ∧ d.retry_count = 1
          ∧ d.error_type = some e) := by
  constructor
  · intro hN
    constructor
    · obtain ⟨q, hq, hrc, _⟩ := runTask_fail_pending registry policies workerId
        e msg (N - 1) p hreg (by omega)
      exact ⟨q, hq, by omega⟩
    · obtain ⟨d, hd, h1, h2, _⟩ := runTask_fail_dead registry policies workerId
        e msg N p hreg (by omega) (by omega)
      exact ⟨d, hd, by omega, h2⟩
  · intro hN
    have hx : effMaxRetries policies p ≤ p.retry_count + 1 := by omega
    refine ⟨{ p with
                retry_count := p.retry_count + 1,
                last_error := some msg,
                error_type := some e,
                error_message := some msg,
                stack_trace := some msg,
                worker_id := some workerId }, ?_, by simp [hfresh], rfl⟩
    simp [List.replicate_one, runTask, execCycle, hreg, hx]

/-- Witness for the amended C2 at a concrete input: a fresh task with
effective max-retries 2 is still pending after 1 failure and dead with
`retry_count = 2` after 2 failures. -/
theorem retries_exhausted_after_n_failures_witness :
    (∃ q, runTask ["job"] [] 0 { task_id := "t1", name := "job", max_retries := 2 }
          (List.replicate (2 - 1) (Outcome.failure "RuntimeError" "boom"))
          = TaskFate.pending q
      ∧ q.retry_count = 2 - 1)
    ∧ (∃ d, runTask ["job"] [] 0 { task_id := "t1", name := "job", max_retries := 2 }
          (List.replicate 2 (Outcome.failure "RuntimeError" "boom"))
          = TaskFate.dead d
      ∧ d.retry_count = 2
      ∧ d.error_type = some "RuntimeError") :=
  (retries_exhausted_after_n_failures ["job"] [] 0 "RuntimeError" "boom"
      { task_id := "t1", name := "job", max_retries := 2 } 2
      (by decide) rfl rfl).1 (by decide)

/-- `record_failure` leaves the auto-requeue counters untouched. -/
theorem record_failure_counts (s : Settings) (wl : WorkerLocal)
    (e id : String) (now : Nat) :
    (record_failure s wl e id now).2.auto_requeue_counts = wl.auto_requeue_counts :=
  rfl

/-- `record_failure` leaves the last-alert map untouched. -/
theorem record_failure_last (s : Settings) (wl : WorkerLocal)
    (e id : String) (now : Nat) :
    (record_failure s wl e id now).2.last_alert_sent = wl.last_alert_sent :=
  rfl

/-- `send_alert` leaves the auto-requeue counters untouched. -/
theorem send_alert_counts (s : Settings) (wl : WorkerLocal) (e : String)
    (now : Nat) (ok : Bool) :
    (send_alert s wl e now ok).2.auto_requeue_counts = wl.auto_requeue_counts := by
  simp only [send_alert]
  split
  · rfl
  · split
    · rfl
    · split
      · rfl
      · split <;> rfl

/-- The triage tail's requeue decision is the pure auto-requeue decision on
the pre-state counters — it is taken before, and independently of, the alert
evaluation. -/
theorem exhausted_triage_requeued (s : Settings) (wl : WorkerLocal)
    (e id : String) (now : Nat) (ok : Bool) :
    (exhausted_triage s wl e id now ok).1.requeued
      = (auto_requeue_step s wl.auto_requeue_counts e id).1 :=
  rfl

/-- The triage tail updates the auto-requeue counters exactly as the
auto-requeue step does; the alert phase never touches them. -/
theorem exhausted_triage_counts (s : Settings) (wl : WorkerLocal)
    (e id : String) (now : Nat) (ok : Bool) :
    (exhausted_triage s wl e id now ok).2.auto_requeue_counts
      = (auto_requeue_step s wl.auto_requeue_counts e id).2 := by
  simp only [exhausted_triage]
  split
  · rw [send_alert_counts, record_failure_counts]
  · rfl

/-- `send_alert` fires exactly when a channel is configured, dry-run is off,
Slack is enabled, the cooldown gate is open, and the post succeeds. -/
theorem send_alert_fst (s : Settings) (wl : WorkerLocal) (e : String)
    (now : Nat) (ok : Bool) :
    (send_alert s wl e now ok).1
      = (!(decide (s.alert_channel = none)) && !(s.dry_run || !s.slack_enabled)
         && !(alert_blocked s wl e now) && ok) := by
  by_cases h1 : s.alert_channel = none
  · simp [send_alert, h1]
  · by_cases h2 : (s.dry_run || !s.slack_enabled) = true
    · simp [send_alert, h1, h2]
    · by_cases h3 : alert_blocked s wl e now = true
      · simp [send_alert, h1, h2, h3]
      · cases ok <;> simp [send_alert, h1, h2, h3]

/-- The cooldown gate reads only the last-alert map. -/
theorem alert_blocked_congr (s : Settings) (wl wl' : WorkerLocal) (e : String)
    (now : Nat) (h : wl.last_alert_sent = wl'.last_alert_sent) :
    alert_blocked s wl e now = alert_blocked s wl' e now := by
  simp [alert_blocked, h]

/-- The alert-dispatch decision reads only the last-alert map. -/
theorem send_alert_fst_congr (s : Settings) (wl wl' : WorkerLocal) (e : String)
    (now : Nat) (ok : Bool) (h : wl.last_alert_sent = wl'.last_alert_sent) :
    (send_alert s wl e now ok).1 = (send_alert s wl' e now ok).1 := by
  rw [send_alert_fst, send_alert_fst, alert_blocked_congr s wl wl' e now h]

/-- The threshold decision of `_record_failure` reads only the failure
windows. -/
theorem record_failure_fst_congr (s : Settings) (wl wl' : WorkerLocal)
    (e id : String) (now : Nat) (h : wl.recent_failures = wl'.recent_failures) :
    (record_failure s wl e id now).1 = (record_failure s wl' e id now).1 := by
  simp [record_failure, h]

/-- The alert decision of the triage tail depends only on the failure windows
and the last-alert map — not on the auto-requeue counters. -/
theorem exhausted_triage_alerted_congr (s : Settings) (wl wl' : WorkerLocal)
    (e id : String) (now : Nat) (ok : Bool)
    (hrf : wl.recent_failures = wl'.recent_failures)
    (hla : wl.last_alert_sent = wl'.last_alert_sent) :
    (exhausted_triage s wl e id now ok).1.alerted
      = (exhausted_triage s wl' e id now ok).1.alerted := by
  simp only [exhausted_triage]
  have h1 : (record_failure s
      { wl with auto_requeue_counts := (auto_requeue_step s wl.auto_requeue_counts e id).2 }
      e id now).1
      = (record_failure s
      { wl' with auto_requeue_counts := (auto_requeue_step s wl'.auto_requeue_counts e id).2 }
      e id now).1 :=
    record_failure_fst_congr s _ _ e id now hrf
  have h2 : (send_alert s (record_failure s
      { wl with auto_requeue_counts := (auto_requeue_step s wl.auto_requeue_counts e id).2 }
      e id now).2 e now ok).1
      = (send_alert s (record_failure s
      { wl' with auto_requeue_counts := (auto_requeue_step s wl'.auto_requeue_counts e id).2 }
      e id now).2 e now ok).1 := by
    apply send_alert_fst_congr
    rw [record_failure_last, record_failure_last]
    exact hla
  by_cases hb : (record_failure s
      { wl with auto_requeue_counts := (auto_requeue_step s wl.auto_requeue_counts e id).2 }
      e id now).1 = true
  · rw [if_pos hb, if_pos (h1 ▸ hb)]
    exact h2
  · rw [if_neg hb, if_neg (fun hc => hb (h1 ▸ hc))]

/-- Once a pair's counter is at or above the cap, the auto-requeue decision is
negative. -/
theorem auto_requeue_step_cap_false (s : Settings) (counts : List (String × Nat))
    (e id : String)
    (hcap : s.max_auto_requeues ≤ (lookupKV counts (id ++ ":" ++ e)).getD 0) :
    (auto_requeue_step s counts e id).1 = false := by
  simp only [auto_requeue_step]
  split
  · have : ¬ ((lookupKV counts (id ++ ":" ++ e)).getD 0 < s.max_auto_requeues) := by
      omega
    simp [this]
  · rfl

/-- One auto-requeue step never decreases any pair's counter. -/
theorem auto_requeue_step_mono (s : Settings) (counts : List (String × Nat))
    (e id key : String) :
    (lookupKV counts key).getD 0
      ≤ (lookupKV (auto_requeue_step s counts e id).2 key).getD 0 := by
  simp only [auto_requeue_step]
  split
  · split
    · by_cases hk : id ++ ":" ++ e = key
      · subst hk
        rw [lookupKV_setKV_self]
        simp
      · rw [lookupKV_setKV_ne _ _ _ _ hk]
    · exact Nat.le_refl _
  · exact Nat.le_refl _

/-- Along any run of the triage tail, a pair whose counter already reached the
cap is never auto-requeued again. -/
theorem run_triage_no_requeue (s : Settings) (e id : String) :
    ∀ (evs : List FailEvent) (wl : WorkerLocal),
      s.max_auto_requeues ≤ (lookupKV wl.auto_requeue_counts (id ++ ":" ++ e)).getD 0 →
      ∀ pr ∈ run_triage s wl evs,
        pr.1.errType = e → pr.1.identifier = id → pr.2.requeued = false := by
  intro evs
  induction evs with
  | nil =>
    intro wl _ pr hpr
    simp [run_triage] at hpr
  | cons ev rest ih =>
    intro wl hcap pr hpr he hid
    simp only [run_triage, List.mem_cons] at hpr
    rcases hpr with hpr | hpr
    · subst hpr
      rw [exhausted_triage_requeued]
      subst he
      subst hid
      exact auto_requeue_step_cap_false s wl.auto_requeue_counts _ _ hcap
    · refine ih (exhausted_triage s wl ev.errType ev.identifier ev.time ev.postOk).2
        ?_ pr hpr he hid
      rw [exhausted_triage_counts]
      exact Nat.le_trans hcap
        (auto_requeue_step_mono s wl.auto_requeue_counts ev.errType ev.identifier _)

/-- C7: an exhausted failure is auto-requeued exactly when its error type is
whitelisted and the `(error_type, identifier)` pair's counter is below the
cap; a fired auto-requeue increments that pair's counter by one; the requeue
decision is evaluated before — and its counter bookkeeping is unaffected by —
the alert evaluation, and the alert decision is independent of the counter
state; and once the pair's counter reaches the cap, every subsequent
exhausted failure of that pair in any run keeps its dead-letter record
without auto-requeue. -/
theorem auto_requeue_bounded (s : Settings) (wl : WorkerLocal)
    (e id : String) (now : Nat) (ok : Bool) :
    ((auto_requeue_step s wl.auto_requeue_counts e id).1 = true
      ↔ (e ∈ s.auto_requeue_errors
         ∧ (lookupKV wl.auto_requeue_counts (id ++ ":" ++ e)).getD 0
             < s.max_auto_requeues))
    ∧ ((auto_requeue_step s wl.auto_requeue_counts e id).1 = true →
        (lookupKV (auto_requeue_step s wl.auto_requeue_counts e id).2
            (id ++ ":" ++ e)).getD 0
          = (lookupKV wl.auto_requeue_counts (id ++ ":" ++ e)).getD 0 + 1)
    ∧ (exhausted_triage s wl e id now ok).1.requeued
        = (auto_requeue_step s wl.auto_requeue_counts e id).1
    ∧ (exhausted_triage s wl e id now ok).2.auto_requeue_counts
        = (auto_requeue_step s wl.auto_requeue_counts e id).2
    ∧ (exhausted_triage s wl e id now ok).1.alerted
        = (exhausted_triage s { wl with auto_requeue_counts := [] }
            e id now ok).1.alerted
    ∧ (s.max_auto_requeues ≤ (lookupKV wl.auto_requeue_counts (id ++ ":" ++ e)).getD 0 →
        ∀ evs, ∀ pr ∈ run_triage s wl evs,
          pr.1.errType = e → pr.1.identifier = id → pr.2.requeued = false) := by
  refine ⟨?_, ?_, exhausted_triage_requeued s wl e id now ok,
    exhausted_triage_counts s wl e id now ok, ?_, ?_⟩
  · simp only [auto_requeue_step, should_auto_requeue]
    constructor
    · intro h
      by_cases hw : e ∈ s.auto_requeue_errors
      · refine ⟨hw, ?_⟩
        by_cases hc : (lookupKV wl.auto_requeue_counts (id ++ ":" ++ e)).getD 0
            < s.max_auto_requeues
        · exact hc
        · simp [hw, hc] at h
      · simp [hw] at h
    · rintro ⟨hw, hc⟩
      simp [hw, hc]
  · intro h
    simp only [auto_requeue_step, should_auto_requeue] at h ⊢
    by_cases hw : e ∈ s.auto_requeue_errors
    · by_cases hc : (lookupKV wl.auto_requeue_counts (id ++ ":" ++ e)).getD 0
          < s.max_auto_requeues
      · simp [hw, hc, lookupKV_setKV_self]
      · simp [hw, hc] at h
    · simp [hw] at h
  · exact exhausted_triage_alerted_congr s wl
      { wl with auto_requeue_counts := [] } e id now ok rfl rfl
  · intro hcap evs
    exact run_triage_no_requeue s e id evs wl hcap

/-- Witness for C7 at a concrete input: with a whitelist containing
`RuntimeError` and cap 1, the first exhausted failure of the pair is
auto-requeued. -/
theorem auto_requeue_bounded_witness :
    (auto_requeue_step
        { auto_requeue_errors := ["RuntimeError"], max_auto_requeues := 1 }
        ({} : WorkerLocal).auto_requeue_counts "RuntimeError" "wf-1").1 = true :=
  (auto_requeue_bounded
      { auto_requeue_errors := ["RuntimeError"], max_auto_requeues := 1 }
      {} "RuntimeError" "wf-1" 0 true).1.mpr (by decide)

/-- A `send_alert` that did not dispatch leaves the last-alert map unchanged. -/
theorem send_alert_snd_of_false (s : Settings) (wl : WorkerLocal) (e : String)
    (now : Nat) (ok : Bool) (h : (send_alert s wl e now ok).1 = false) :
    (send_alert s wl e now ok).2.last_alert_sent = wl.last_alert_sent := by
  by_cases h1 : s.alert_channel = none
  · simp [send_alert, h1]
  · by_cases h2 : (s.dry_run || !s.slack_enabled) = true
    · simp [send_alert, h1, h2]
    · by_cases h3 : alert_blocked s wl e now = true
      · simp [send_alert, h1, h2, h3]
      · cases ok
        · simp [send_alert, h1, h2, h3]
        · simp [send_alert, h1, h2, h3] at h

/-- A `send_alert` that dispatched records `now` for this error type, and the
cooldown gate was open. -/
theorem send_alert_snd_of_true (s : Settings) (wl : WorkerLocal) (e : String)
    (now : Nat) (ok : Bool) (h : (send_alert s wl e now ok).1 = true) :
    (send_alert s wl e now ok).2.last_alert_sent = setKV wl.last_alert_sent e now
    ∧ alert_blocked s wl e now = false := by
  by_cases h1 : s.alert_channel = none
  · simp [send_alert, h1] at h
  · by_cases h2 : (s.dry_run || !s.slack_enabled) = true
    · simp [send_alert, h1, h2] at h
    · by_cases h3 : alert_blocked s wl e now = true
      · simp [send_alert, h1, h2, h3] at h
      · cases ok
        · simp [send_alert, h1, h2, h3] at h
        · refine ⟨by simp [send_alert, h1, h2, h3], ?_⟩
          simp at h3
          exact h3

/-- An open cooldown gate means: any recorded last alert for this error type
is at least the cooldown old. -/
theorem alert_blocked_false_spec (s : Settings) (wl : WorkerLocal) (e : String)
    (now : Nat) (h : alert_blocked s wl e now = false) :
    ∀ t, lookupKV wl.last_alert_sent e = some t → s.alert_cooldown ≤ now - t := by
  intro t ht
  simp [alert_blocked, ht] at h
  omega

/-- A triage step that did not alert leaves the last-alert map unchanged. -/
theorem exhausted_triage_last_of_not_alerted (s : Settings) (wl : WorkerLocal)
    (e id : String) (now : Nat) (ok : Bool)
    (h : (exhausted_triage s wl e id now ok).1.alerted = false) :
    (exhausted_triage s wl e id now ok).2.last_alert_sent = wl.last_alert_sent := by
  revert h
  simp only [exhausted_triage]
  by_cases hb : (record_failure s
      { wl with auto_requeue_counts := (auto_requeue_step s wl.auto_requeue_counts e id).2 }
      e id now).1 = true
  · rw [if_pos hb]
    intro h
    rw [send_alert_snd_of_false _ _ _ _ _ h, record_failure_last]
  · rw [if_neg hb]
    intro _
    rw [record_failure_last]

/-- A triage step that alerted stamped `now` as the last alert for its error
type, and its cooldown gate — read on the pre-state map — was open. -/
theorem exhausted_triage_last_of_alerted (s : Settings) (wl : WorkerLocal)
    (e id : String) (now : Nat) (ok : Bool)
    (h : (exhausted_triage s wl e id now ok).1.alerted = true) :
    (exhausted_triage s wl e id now ok).2.last_alert_sent
      = setKV wl.last_alert_sent e now
    ∧ alert_blocked s wl e now = false := by
  revert h
  simp only [exhausted_triage]
  by_cases hb : (record_failure s
      { wl with auto_requeue_counts := (auto_requeue_step s wl.auto_requeue_counts e id).2 }
      e id now).1 = true
  · rw [if_pos hb]
    intro h
    obtain ⟨hset, hgate⟩ := send_alert_snd_of_true _ _ _ _ _ h
    constructor
    · rw [hset, record_failure_last]
    · have hcongr : alert_blocked s (record_failure s
          { wl with auto_requeue_counts :=
              (auto_requeue_step s wl.auto_requeue_counts e id).2 }
          e id now).2 e now = alert_blocked s wl e now :=
        alert_blocked_congr s _ wl e now (by rw [record_failure_last])
      rw [← hcongr]
      exact hgate
  · rw [if_neg hb]
    intro h
    exact absurd h (by simp)

/-- `alertTimes` over a cons. -/
theorem alertTimes_cons (e : String) (pr : FailEvent × TriageResult)
    (log : List (FailEvent × TriageResult)) :
    alertTimes e (pr :: log)
      = if pr.2.alerted && decide (pr.1.errType = e)
        then pr.1.time :: alertTimes e log
        else alertTimes e log := by
  simp only [alertTimes, List.filter_cons]
  split <;> simp

/-- Dispatch-time separation along a triage run: with a monotone clock, and a
last-alert map whose recorded time (if any) is at most every upcoming event
time, the alert times dispatched for an error type are pairwise at least one
cooldown apart, and all of them are at least one cooldown after any recorded
last alert. -/
theorem run_triage_alert_sep (s : Settings) (e : String) :
    ∀ (evs : List FailEvent) (wl : WorkerLocal),
      List.Pairwise (fun a b => a.time ≤ b.time) evs →
      (∀ t, lookupKV wl.last_alert_sent e = some t → ∀ ev ∈ evs, t ≤ ev.time) →
      List.Pairwise (fun a b => a + s.alert_cooldown ≤ b)
        (alertTimes e (run_triage s wl evs))
      ∧ (∀ t, lookupKV wl.last_alert_sent e = some t →
          ∀ x ∈ alertTimes e (run_triage s wl evs), t + s.alert_cooldown ≤ x) := by
  intro evs
  induction evs with
  | nil =>
    intro wl _ _
    constructor
    · simp [run_triage, alertTimes]
    · intro t _ x hx
      simp [run_triage, alertTimes] at hx
  | cons ev rest ih =>
    intro wl hmono hinv
    rw [List.pairwise_cons] at hmono
    obtain ⟨hhead, htail⟩ := hmono
    rw [show run_triage s wl (ev :: rest)
        = (ev, (exhausted_triage s wl ev.errType ev.identifier ev.time ev.postOk).1)
          :: run_triage s
              (exhausted_triage s wl ev.errType ev.identifier ev.time ev.postOk).2
              rest from rfl]
    rw [alertTimes_cons]
    dsimp only
    by_cases hAl : (exhausted_triage s wl ev.errType ev.identifier ev.time
        ev.postOk).1.alerted = true
    · by_cases hE : ev.errType = e
      · -- the head event dispatches for `e`
        obtain ⟨hset, hgate⟩ := exhausted_triage_last_of_alerted s wl ev.errType
          ev.identifier ev.time ev.postOk hAl
        rw [hE] at hgate
        have hlook : lookupKV (exhausted_triage s wl ev.errType ev.identifier
            ev.time ev.postOk).2.last_alert_sent e = some ev.time := by
          rw [hset, hE]
          exact lookupKV_setKV_self _ _ _
        have hinv' : ∀ t, lookupKV (exhausted_triage s wl ev.errType ev.identifier
            ev.time ev.postOk).2.last_alert_sent e = some t →
            ∀ ev' ∈ rest, t ≤ ev'.time := by
          intro t ht ev' hev'
          rw [hlook] at ht
          cases ht
          exact hhead ev' hev'
        obtain ⟨htailP, htailB⟩ := ih
          (exhausted_triage s wl ev.errType ev.identifier ev.time ev.postOk).2
          htail hinv'
        have hbound : ∀ x ∈ alertTimes e (run_triage s
            (exhausted_triage s wl ev.errType ev.identifier ev.time ev.postOk).2
            rest), ev.time + s.alert_cooldown ≤ x :=
          htailB ev.time hlook
        rw [if_pos (by rw [hAl]; simp [hE])]
        constructor
        · exact List.pairwise_cons.mpr ⟨hbound, htailP⟩
        · intro t0 ht0 x hx
          have ht0le : t0 ≤ ev.time := hinv t0 ht0 ev (List.mem_cons_self ev rest)
          have hcool : s.alert_cooldown ≤ ev.time - t0 :=
            alert_blocked_false_spec s wl e ev.time hgate t0 ht0
          rcases List.mem_cons.mp hx with hx | hx
          · subst hx
            omega
          · have := hbound x hx
            omega
      · -- dispatched, but for another error type
        obtain ⟨hset, _⟩ := exhausted_triage_last_of_alerted s wl ev.errType
          ev.identifier ev.time ev.postOk hAl
        have hkeep : lookupKV (exhausted_triage s wl ev.errType ev.identifier
            ev.time ev.postOk).2.last_alert_sent e
            = lookupKV wl.last_alert_sent e := by
          rw [hset]
          exact lookupKV_setKV_ne _ _ _ _ hE
        have hinv' : ∀ t, lookupKV (exhausted_triage s wl ev.errType ev.identifier
            ev.time ev.postOk).2.last_alert_sent e = some t →
            ∀ ev' ∈ rest, t ≤ ev'.time := by
          intro t ht ev' hev'
          rw [hkeep] at ht
          exact hinv t ht ev' (List.mem_cons_of_mem ev hev')
        obtain ⟨htailP, htailB⟩ := ih
          (exhausted_triage s wl ev.errType ev.identifier ev.time ev.postOk).2
          htail hinv'
        rw [if_neg (by simp [hE])]
        refine ⟨htailP, ?_⟩
        intro t0 ht0 x hx
        exact htailB t0 (by rw [hkeep]; exact ht0) x hx
    · -- no dispatch at the head event
      have hset := exhausted_triage_last_of_not_alerted s wl ev.errType
        ev.identifier ev.time ev.postOk (by simpa using hAl)
      have hinv' : ∀ t, lookupKV (exhausted_triage s wl ev.errType ev.identifier
          ev.time ev.postOk).2.last_alert_sent e = some t →
          ∀ ev' ∈ rest, t ≤ ev'.time := by
        intro t ht ev' hev'
        rw [hset] at ht
        exact hinv t ht ev' (List.mem_cons_of_mem ev hev')
      obtain ⟨htailP, htailB⟩ := ih
        (exhausted_triage s wl ev.errType ev.identifier ev.time ev.postOk).2
        htail hinv'
      rw [if_neg (by simp [hAl])]
      refine ⟨htailP, ?_⟩
      intro t0 ht0 x hx
      exact htailB t0 (by rw [hset]; exact ht0) x hx

/-- C6: starting from a fresh worker, over any sequence of exhausted failures
with a monotone clock, the alerts dispatched for any given error type are
pairwise at least one cooldown apart — dispatch fires at most once per
cooldown window for each error type, no matter how often the threshold
condition is met inside the window. -/
theorem alert_cooldown_respected (s : Settings) (evs : List FailEvent)
    (e : String)
    (hmono : List.Pairwise (fun a b => a.time ≤ b.time) evs) :
    List.Pairwise (fun a b => a + s.alert_cooldown ≤ b)
      (alertTimes e (run_triage s {} evs)) :=
  (run_triage_alert_sep s e evs {} hmono (fun t ht => nomatch ht)).1

/-- Witness for C6 at a concrete input: threshold 1, cooldown 600, two
exhausted failures of the same error type at times 0 and 10 — the dispatched
alert times for that error type are pairwise cooldown-separated (only the
first fires). -/
theorem alert_cooldown_respected_witness :
    List.Pairwise (fun a b => a + (600 : Nat) ≤ b)
      (alertTimes "RuntimeError"
        (run_triage
          { alert_threshold := 1, alert_cooldown := 600,
            alert_channel := some "alerts", dry_run := false,
            slack_enabled := true }
          {}
          [⟨"RuntimeError", "wf-1", 0, true⟩, ⟨"RuntimeError", "wf-1", 10, true⟩])) :=
  alert_cooldown_respected
    { alert_threshold := 1, alert_cooldown := 600, alert_channel := some "alerts",
      dry_run := false, slack_enabled := true }
    [⟨"RuntimeError", "wf-1", 0, true⟩, ⟨"RuntimeError", "wf-1", 10, true⟩]
    "RuntimeError" (by decide)

end AgentPM
